import Mathlib

/-!
# Verification of the kmitlnetauth core (crates/core)

Shallow embedding of the connectivity/authentication control loop and the
credential-resolution logic of the `kmitlnetauth` repository, together with
theorems settling the specification claims about it.

The embedding follows `crates/core/src/client.rs`, `config.rs`,
`credentials.rs` and `error.rs`.  Network I/O, the OS keyring and the file
system are modelled by passing their per-call results in explicitly; strings
are Lean `String`s; the Rust integer fields (`u64`, `u32`) are `Nat` (no
arithmetic in the code can overflow them).
-/

namespace KmitlNetAuth

/-- `crates/core/src/error.rs`: the `Error` enum (payloads of the wrapped
`io`/`reqwest`/`serde_json` errors are irrelevant to the claims and dropped). -/
inductive Error where
  | io : Error
  | network : Error
  | json : Error
  | config (msg : String) : Error
  | authFailed (msg : String) : Error
  | unknown : Error
deriving DecidableEq, Repr

/-- `crates/core/src/config.rs`: the `Config` struct. `interval : u64` and
`max_attempt : u32` become `Nat`. -/
structure Config where
  username : String
  password : Option String
  ip_address : Option String
  interval : Nat
  max_attempt : Nat
  auto_login : Bool
deriving DecidableEq, Repr

/-- `Config::default()` from `config.rs`. -/
def Config.default : Config :=
  { username := "", password := none, ip_address := none,
    interval := 300, max_attempt := 20, auto_login := true }

/-- Result of one OS-keyring password lookup
(`CredentialManager::get_password`'s environment): the entry's stored value,
`noEntry` (`keyring::Error::NoEntry`), or any other keyring error. -/
inductive KeyringResult where
  | found (pwd : String) : KeyringResult
  | noEntry : KeyringResult
  | err : KeyringResult
deriving DecidableEq, Repr

/-- `crates/core/src/credentials.rs`, `CredentialManager::get_password`:
`Ok(pwd)` when the entry exists, an `Error::Config` otherwise (both for
`NoEntry` and for any other keyring failure). -/
def CredentialManager.get_password (kr : KeyringResult) : Except Error String :=
  match kr with
  | .found pwd => .ok pwd
  | .noEntry => .error (.config "Password not found in keyring")
  | .err => .error (.config "Failed to retrieve password from keyring")

/-- Result of one OS-keyring password write (`CredentialManager::set_password`'s
environment). -/
inductive StoreWrite where
  | ok : StoreWrite
  | err : StoreWrite
deriving DecidableEq, Repr

/-- `crates/core/src/credentials.rs`, `CredentialManager::set_password`:
succeeds or fails with an `Error::Config` according to the keyring. -/
def CredentialManager.set_password (w : StoreWrite) : Except Error Unit :=
  match w with
  | .ok => .ok ()
  | .err => .error (.config "Failed to save password to keyring")

/-- `Config::get_password` (`config.rs` lines 123-137): first the plaintext
password from the configuration if non-empty, then the keyring (consulted only
when the username is non-empty), else the empty string.  `kr` is the result
the keyring would give for the entry `("kmitlnetauth", username)`. -/
def Config.get_password (c : Config) (kr : KeyringResult) : String :=
  match c.password with
  | some pwd =>
    if !pwd.isEmpty then pwd
    else if !c.username.isEmpty then
      match CredentialManager.get_password kr with
      | .ok pwd => pwd
      | .error _ => ""
    else ""
  | none =>
    if !c.username.isEmpty then
      match CredentialManager.get_password kr with
      | .ok pwd => pwd
      | .error _ => ""
    else ""

/-- The spec's own description of `resolvePassword` ("first non-empty wins":
plaintext, then secure-store value, then empty), written from the spec's words
for comparison with `Config.get_password`. -/
def resolvePasswordSpec (plaintext storeValue : String) : String :=
  if !plaintext.isEmpty then plaintext
  else if !storeValue.isEmpty then storeValue
  else ""

/-- Decidable equality for `Except`, needed to evaluate the embedding on
concrete inputs. -/
instance {ε α : Type} [DecidableEq ε] [DecidableEq α] :
    DecidableEq (Except ε α) := fun a b =>
  match a, b with
  | .ok x, .ok y =>
    if h : x = y then isTrue (congrArg Except.ok h)
    else isFalse fun hc => h (Except.ok.inj hc)
  | .error x, .error y =>
    if h : x = y then isTrue (congrArg Except.error h)
    else isFalse fun hc => h (Except.error.inj hc)
  | .ok _, .error _ => isFalse fun hc => Except.noConfusion hc
  | .error _, .ok _ => isFalse fun hc => Except.noConfusion hc

/-- An HTTP response as the client observes it: the status code, and the
result of reading the body (`response.text().await`, which can itself fail). -/
structure HttpResponse where
  status : Nat
  body : Except Unit String
deriving DecidableEq, Repr

/-- Result of one HTTP request: a transport error (`reqwest::Error`) or a
response (any status; `reqwest` does not error on non-2xx). -/
abbrev NetResult := Except Unit HttpResponse

/-- `reqwest::StatusCode::is_success()`: 200 ≤ status ≤ 299. -/
def isSuccessStatus (status : Nat) : Bool :=
  200 ≤ status && status < 300

/-- Rust `char::is_whitespace` restricted to the ASCII range (the only
characters relevant to the probe's `"success"` sentinel). -/
def isRustWhitespace (ch : Char) : Bool :=
  ch == ' ' || ch == '\t' || ch == '\n' || ch == '\r'
    || ch == Char.ofNat 11 || ch == Char.ofNat 12

/-- Rust `str::trim`: remove whitespace from both ends. -/
def rustTrim (s : String) : String :=
  ⟨(((s.data.dropWhile isRustWhitespace).reverse.dropWhile
      isRustWhitespace).reverse)⟩

/-- `AuthClient::check_internet` (`client.rs` lines 121-131): GET the probe
URL; on transport error or body-read error return `false`, otherwise compare
the trimmed body with `"success"`.  The HTTP status is never inspected. -/
def check_internet (r : NetResult) : Bool :=
  match r with
  | .ok response =>
    match response.body with
    | .ok text => rustTrim text == "success"
    | .error _ => false
  | .error _ => false

/-- `AuthClient::heartbeat` (`client.rs` lines 97-119): `Ok(true)` on HTTP
success, `Ok(false)` on any non-success status or transport error; it never
returns `Err`. -/
def heartbeat (r : NetResult) : Except Error Bool :=
  match r with
  | .ok response =>
    if isSuccessStatus response.status then .ok true else .ok false
  | .error _ => .ok false

end KmitlNetAuth

namespace KmitlNetAuth

/-- The form parameters `AuthClient::login` builds (`client.rs` lines 65-72),
as an association list. `acip` is the constant `ACIP`. -/
def loginParams (username password ip_address mac_address : String) :
    List (String × String) :=
  [("userName", username),
   ("userPass", password),
   ("uaddress", ip_address),
   ("umac", mac_address),
   ("agreed", "1"),
   ("acip", "10.252.13.10"),
   ("authType", "1")]

/-- `AuthClient::login` (`client.rs` lines 53-95), returning the result
together with the list of network requests performed (each as the form it
POSTs; the empty list means zero network calls).  `kr` is the keyring lookup
backing `Config::get_password`; `net` the result of the login POST (consumed
only if the request is made). -/
def login (c : Config) (kr : KeyringResult) (mac_address : String)
    (net : NetResult) : Except Error Unit × List (List (String × String)) :=
  let username := c.username
  let password := c.get_password kr
  let ip_address := c.ip_address.getD ""
  if username.isEmpty || password.isEmpty then
    (.error (.authFailed "Missing credentials"), [])
  else
    let params := loginParams username password ip_address mac_address
    match net with
    | .error _ => (.error .network, [params])
    | .ok response =>
      if isSuccessStatus response.status then
        match response.body with
        | .ok _ => (.ok (), [params])
        | .error _ => (.error .network, [params])
      else
        (.error (.authFailed ("Status code: " ++ toString response.status)),
         [params])

/-- The mutable state of `AuthClient::run_loop` (`client.rs` lines 133-190):
`login_attempts` and `was_connected`. -/
structure LoopState where
  login_attempts : Nat
  was_connected : Bool
deriving DecidableEq, Repr

/-- The initial loop state: `login_attempts = 0`, `was_connected = true`
(`client.rs` lines 134-136). -/
def initState : LoopState := { login_attempts := 0, was_connected := true }

/-- The spec's three-valued connectivity state. The code tracks connectivity
with the boolean `was_connected`; this maps that boolean onto the spec's enum
(a boolean can never denote `Unknown`). -/
inductive ConnState where
  | Unknown : ConnState
  | Connected : ConnState
  | Disconnected : ConnState
deriving DecidableEq, Repr

/-- The spec-level connectivity state the code's `was_connected` denotes. -/
def observedState (was_connected : Bool) : ConnState :=
  if was_connected then .Connected else .Disconnected

/-- The external world of one cycle of `run_loop`: the results of the probe
GET, the heartbeat POST, the login POST and the keyring lookup — each consumed
only if the corresponding call is made this cycle. -/
structure CycleNet where
  probe : NetResult
  hb : NetResult
  loginNet : NetResult
  kr : KeyringResult
deriving DecidableEq, Repr

/-- What one cycle of `run_loop` did: the new state, how many times `login()`
was called (0 or 1) and its result if called, whether the "Connected" /
"Disconnected" notifications fired, and the sleeps performed (in seconds, in
order). -/
structure CycleOutput where
  state : LoopState
  logins : Nat
  loginResult : Option (Except Error Unit)
  restored : Bool
  lost : Bool
  sleeps : List Nat
deriving DecidableEq, Repr

/-- One iteration of the `loop` in `AuthClient::run_loop` (`client.rs` lines
138-189).  If `auto_login` is off the cycle sleeps 5s and does nothing else.
Otherwise the probe runs; while connected the counter is reset and a failed
heartbeat triggers one login; while disconnected a login is attempted and
counted below `max_attempt`, else a fixed 60s backoff resets the counter. -/
def runCycle (c : Config) (mac_address : String) (s : LoopState)
    (net : CycleNet) : CycleOutput :=
  if !c.auto_login then
    { state := s, logins := 0, loginResult := none,
      restored := false, lost := false, sleeps := [5] }
  else
    let has_internet := check_internet net.probe
    if has_internet then
      let restored := !s.was_connected
      let s1 : LoopState := { login_attempts := 0, was_connected := true }
      match heartbeat net.hb with
      | .ok true =>
        { state := s1, logins := 0, loginResult := none,
          restored := restored, lost := false, sleeps := [c.interval] }
      | _ =>
        { state := s1, logins := 1,
          loginResult := some (login c net.kr mac_address net.loginNet).1,
          restored := restored, lost := false, sleeps := [c.interval] }
    else
      let lost := s.was_connected
      let s1 : LoopState := { s with was_connected := false }
      if s1.login_attempts < c.max_attempt then
        { state := { s1 with login_attempts := s1.login_attempts + 1 },
          logins := 1,
          loginResult := some (login c net.kr mac_address net.loginNet).1,
          restored := false, lost := lost, sleeps := [c.interval] }
      else
        { state := { s1 with login_attempts := 0 },
          logins := 0, loginResult := none,
          restored := false, lost := lost, sleeps := [60, c.interval] }

/-- The list of cycle outputs produced by running the loop on a list of
per-cycle environments. -/
def runTrace (c : Config) (mac_address : String) :
    LoopState → List CycleNet → List CycleOutput
  | _, [] => []
  | s, n :: rest =>
    let o := runCycle c mac_address s n
    o :: runTrace c mac_address o.state rest

/-- The loop state after running the loop on a list of per-cycle
environments. -/
def runSteps (c : Config) (mac_address : String) :
    LoopState → List CycleNet → LoopState
  | s, [] => s
  | s, n :: rest => runSteps c mac_address (runCycle c mac_address s n).state rest

/-- The keyring-migration step of `Config::load` (`config.rs` lines 75-87),
run after parsing and environment overrides have produced `c`.  Returns the
overall result of `load` (from this point on) and whether a keyring write was
attempted.  A failed write only warns; the config is returned unchanged and
`load` still succeeds. -/
def Config.loadMigrate (c : Config) (w : StoreWrite) :
    Except Error Config × Bool :=
  match c.password with
  | some pwd =>
    if !pwd.isEmpty && !c.username.isEmpty then
      match CredentialManager.set_password w with
      | .ok _ => (.ok c, true)
      | .error _ => (.ok c, true)
    else (.ok c, false)
  | none => (.ok c, false)

/-- `Config::save` (`config.rs` lines 92-121).  `w` is the keyring's response
to `set_password`; `fs` the result of `fs::write`.  Returns the configuration
document handed to the serializer (whose `password` field is omitted from the
persisted YAML exactly when it is `none`, per `skip_serializing_if`), whether
a keyring write was attempted, and the overall result. -/
def Config.save (c : Config) (w : StoreWrite) (fs : Except Unit Unit) :
    Config × Bool × Except Error Unit :=
  let saved : Config × Bool :=
    match c.password with
    | some pwd =>
      if !pwd.isEmpty && !c.username.isEmpty then
        match CredentialManager.set_password w with
        | .ok _ => ({ c with password := none }, true)
        | .error _ => (c, true)
      else (c, false)
    | none => (c, false)
  match fs with
  | .ok _ => (saved.1, saved.2, .ok ())
  | .error _ => (saved.1, saved.2, .error .io)

/-- A MAC address as the `mac_address` crate reports it: six bytes. -/
structure MacAddr where
  b0 : Fin 256
  b1 : Fin 256
  b2 : Fin 256
  b3 : Fin 256
  b4 : Fin 256
  b5 : Fin 256
deriving DecidableEq, Repr

/-- Upper-case hexadecimal digit (the `{:02X}` format). -/
def hexDigitUpper (n : Nat) : Char :=
  if n < 10 then Char.ofNat (48 + n) else Char.ofNat (55 + n)

/-- One byte as two upper-case hexadecimal digits (`{:02X}`). -/
def hexPairUpper (b : Fin 256) : List Char :=
  [hexDigitUpper (b.val / 16), hexDigitUpper (b.val % 16)]

/-- `MacAddress::to_string()` of the `mac_address` crate: the six bytes as
upper-case hex pairs joined by `':'`. -/
def macDisplay (m : MacAddr) : String :=
  ⟨hexPairUpper m.b0 ++ ':' :: hexPairUpper m.b1 ++ ':' :: hexPairUpper m.b2
    ++ ':' :: hexPairUpper m.b3 ++ ':' :: hexPairUpper m.b4
    ++ ':' :: hexPairUpper m.b5⟩

/-- Rust `str::replace(":", "")`: for a one-character pattern and empty
replacement this removes every occurrence of the character. -/
def stripColons (s : String) : String :=
  ⟨s.data.filter (fun ch => ch != ':')⟩

/-- Rust `char` lowercase mapping restricted to the ASCII range (the only
characters a MAC display string contains). -/
def rustToLower (ch : Char) : Char :=
  if 'A' ≤ ch && ch ≤ 'Z' then Char.ofNat (ch.toNat + 32) else ch

/-- Rust `str::to_lowercase()` on ASCII strings. -/
def lowerString (s : String) : String :=
  ⟨s.data.map rustToLower⟩

/-- Result of `mac_address::get_mac_address()`: an error, no interface found,
or a MAC address. -/
abbrev MacResult := Except Unit (Option MacAddr)

/-- The MAC string `AuthClient::new` stores (`client.rs` lines 29-32):
`mac.to_string().replace(":", "").to_lowercase()` when an address is
reported, the fallback `"000000000000"` on `Ok(None)` or `Err(_)`. -/
def computeMac (r : MacResult) : String :=
  match r with
  | .ok (some m) => lowerString (stripColons (macDisplay m))
  | .ok none => "000000000000"
  | .error _ => "000000000000"

/-- `crates/core/src/client.rs`: the `AuthClient` struct (the `reqwest`
client handle carries no state the claims mention). -/
structure AuthClient where
  config : Config
  mac_address : String
deriving DecidableEq, Repr

/-- `AuthClient::new` (`client.rs` lines 22-39): fails only if building the
HTTP client fails (`builder`); the MAC lookup cannot fail it. -/
def AuthClient.new (c : Config) (builder : Except Error Unit) (r : MacResult) :
    Except Error AuthClient :=
  match builder with
  | .error e => .error e
  | .ok _ => .ok { config := c, mac_address := computeMac r }

/-- Written from the spec's words, for comparison: lower-case hexadecimal
digit. -/
def hexDigitLowerSpec (n : Nat) : Char :=
  if n < 10 then Char.ofNat (48 + n) else Char.ofNat (87 + n)

/-- Written from the spec's words, for comparison: one byte as two lower-case
hexadecimal digits. -/
def hexPairLowerSpec (b : Fin 256) : List Char :=
  [hexDigitLowerSpec (b.val / 16), hexDigitLowerSpec (b.val % 16)]

/-- Written from the spec's words, for comparison: "the lowercase hex string
with colons removed" for a six-byte MAC address. -/
def macHexLowerSpec (m : MacAddr) : String :=
  ⟨hexPairLowerSpec m.b0 ++ hexPairLowerSpec m.b1 ++ hexPairLowerSpec m.b2
    ++ hexPairLowerSpec m.b3 ++ hexPairLowerSpec m.b4 ++ hexPairLowerSpec m.b5⟩

/-- The value of the `KeyringResult` as the spec sees it: the stored
secure-store value, or the empty string when there is none / the store is
unreachable. -/
def keyringValue : KeyringResult → String
  | .found pwd => pwd
  | .noEntry => ""
  | .err => ""

/-- A concrete configuration used to evaluate the loop: credentials set,
default cadence, `max_attempt = 20`, auto-login on. -/
def cfg20 : Config :=
  { username := "u", password := some "p", ip_address := none,
    interval := 300, max_attempt := 20, auto_login := true }

/-- `cfg20` with auto-login switched off. -/
def cfgPaused : Config :=
  { cfg20 with auto_login := false }

/-- A cycle environment in which every network call fails at the transport
level and the keyring has no entry. -/
def downNet : CycleNet :=
  { probe := .error (), hb := .error (), loginNet := .error (),
    kr := .noEntry }

/-- A cycle environment in which the probe fails but the login POST would
succeed. -/
def loginOkNet : CycleNet :=
  { probe := .error (), hb := .error (), loginNet := .ok ⟨200, .ok ""⟩,
    kr := .noEntry }

/-- A cycle environment in which the probe succeeds, the heartbeat is
rejected with HTTP 500, and the login POST would succeed. -/
def hbFailNet : CycleNet :=
  { probe := .ok ⟨200, .ok "success"⟩, hb := .ok ⟨500, .ok ""⟩,
    loginNet := .ok ⟨200, .ok ""⟩, kr := .noEntry }

end KmitlNetAuth

namespace KmitlNetAuth

/-! ## Theorems settling the claims -/

/-- Claim C1, counterexample: a response with HTTP status 404 whose body is
`"success"` makes `check_internet` return `true`, so "returns true iff status
is 200 and the trimmed body is the sentinel" is false — the status is never
inspected. -/
theorem check_internet_status_ignored :
    ¬ (check_internet (.ok ⟨404, .ok "success"⟩) = true
        ↔ ((404 : Nat) = 200 ∧ rustTrim "success" = "success")) := by
  decide

/-- Claim C1, amended: `check_internet` returns `true` iff the transport
succeeds, the body is readable and the trimmed body equals `"success"`,
irrespective of the HTTP status; every transport or body-read error yields
`false`, and the function is total (never a hard error). -/
theorem check_internet_characterization :
    (∀ e, check_internet (.error e) = false)
    ∧ (∀ status text, check_internet (.ok ⟨status, .ok text⟩)
        = (rustTrim text == "success"))
    ∧ (∀ status e, check_internet (.ok ⟨status, .error e⟩) = false) :=
  ⟨fun _ => rfl, fun _ _ => rfl, fun _ _ => rfl⟩

/-- Claim C2, counterexample: in a disconnected cycle the login attempt is
made and succeeds (`loginResult = some (ok ())`), yet `login_attempts` ends at
1, not 0 — a successful login does not reset the counter; only a successful
probe does. -/
theorem login_success_does_not_reset_counter :
    (runCycle cfg20 "000000000000" initState loginOkNet).logins = 1
    ∧ (runCycle cfg20 "000000000000" initState loginOkNet).loginResult
        = some (.ok ())
    ∧ (runCycle cfg20 "000000000000" initState loginOkNet).state.login_attempts
        = 1
    ∧ (runCycle cfg20 "000000000000" initState loginOkNet).state.login_attempts
        ≠ 0 := by
  decide

/-- Claim C2, amended: on every non-paused cycle, `login_attempts` is reset to
0 exactly when the probe succeeds; while the probe fails it increments by 1
per login attempt regardless of the login outcome below `max_attempt`, and is
reset to 0 at the cooldown cycle (so it is not monotone across a whole
disconnected streak, and login success alone never resets it). -/
theorem login_attempts_reset_policy :
    ∀ c mac s net, c.auto_login = true →
      (check_internet net.probe = true →
        (runCycle c mac s net).state.login_attempts = 0)
      ∧ (check_internet net.probe = false → s.login_attempts < c.max_attempt →
          (runCycle c mac s net).state.login_attempts = s.login_attempts + 1)
      ∧ (check_internet net.probe = false → ¬ s.login_attempts < c.max_attempt →
          (runCycle c mac s net).state.login_attempts = 0) := by
  intro c mac s net hauto
  refine ⟨fun hprobe => ?_, fun hprobe hlt => ?_, fun hprobe hnlt => ?_⟩
  · rcases h : heartbeat net.hb with e | b
    · simp [runCycle, hauto, hprobe, h]
    · cases b <;> simp [runCycle, hauto, hprobe, h]
  · simp [runCycle, hauto, hprobe, hlt]
  · simp [runCycle, hauto, hprobe, hnlt]

/-- Witness for `login_attempts_reset_policy` at concrete states: a
reconnecting cycle resets a counter of 3, a disconnected cycle below the bound
advances 3 to 4, and a disconnected cycle at the bound resets 20 to 0. -/
theorem login_attempts_reset_policy_witness :
    (runCycle cfg20 "000000000000" ⟨3, false⟩ hbFailNet).state.login_attempts = 0
    ∧ (runCycle cfg20 "000000000000" ⟨3, false⟩ downNet).state.login_attempts = 4
    ∧ (runCycle cfg20 "000000000000" ⟨20, false⟩ downNet).state.login_attempts
        = 0 :=
  ⟨(login_attempts_reset_policy cfg20 "000000000000" ⟨3, false⟩ hbFailNet rfl).1
      (by decide),
   (login_attempts_reset_policy cfg20 "000000000000" ⟨3, false⟩ downNet rfl).2.1
      (by decide) (by decide),
   (login_attempts_reset_policy cfg20 "000000000000" ⟨20, false⟩ downNet rfl).2.2
      (by decide) (by decide)⟩

/-- Helper: one cycle preserves `login_attempts ≤ max_attempt`. -/
theorem runCycle_login_attempts_le (c : Config) (mac : String) (s : LoopState)
    (net : CycleNet) (h : s.login_attempts ≤ c.max_attempt) :
    (runCycle c mac s net).state.login_attempts ≤ c.max_attempt := by
  rcases hauto : c.auto_login with _ | _
  · simpa [runCycle, hauto] using h
  · rcases hprobe : check_internet net.probe with _ | _
    · by_cases hlt : s.login_attempts < c.max_attempt
      · simp only [runCycle, hauto, hprobe]
        simp [hlt]
        omega
      · simp [runCycle, hauto, hprobe, hlt]
    · rcases hh : heartbeat net.hb with e | b
      · simp [runCycle, hauto, hprobe, hh]
      · cases b <;> simp [runCycle, hauto, hprobe, hh]

/-- Helper: the loop keeps `login_attempts ≤ max_attempt` along any run. -/
theorem runSteps_login_attempts_le (c : Config) (mac : String) :
    ∀ nets (s : LoopState), s.login_attempts ≤ c.max_attempt →
      (runSteps c mac s nets).login_attempts ≤ c.max_attempt := by
  intro nets
  induction nets with
  | nil => intro s h; simpa [runSteps] using h
  | cons n rest ih =>
    intro s h
    simp only [runSteps]
    exact ih _ (runCycle_login_attempts_le c mac s n h)

/-- Claim C3: while disconnected, below `max_attempt` the cycle performs one
login, increments the counter regardless of outcome and sleeps the normal
interval; at the bound it performs no login, sleeps a fixed 60 seconds plus
the interval and resets the counter to 0; the counter never exceeds
`max_attempt` along any run; and 25 consecutive failed probes with
`max_attempt = 20` give exactly 20 logins, then one 60-second cooldown with
counter 0, then a 21st login. -/
theorem backoff_policy :
    (∀ c mac s net, c.auto_login = true → check_internet net.probe = false →
      (s.login_attempts < c.max_attempt →
        (runCycle c mac s net).logins = 1
        ∧ (runCycle c mac s net).state.login_attempts = s.login_attempts + 1
        ∧ (runCycle c mac s net).sleeps = [c.interval])
      ∧ (¬ s.login_attempts < c.max_attempt →
        (runCycle c mac s net).logins = 0
        ∧ (runCycle c mac s net).state.login_attempts = 0
        ∧ (runCycle c mac s net).sleeps = [60, c.interval]))
    ∧ (∀ c mac nets (s : LoopState), s.login_attempts ≤ c.max_attempt →
        (runSteps c mac s nets).login_attempts ≤ c.max_attempt)
    ∧ (runTrace cfg20 "000000000000" initState (List.replicate 25 downNet)).map
          (fun o => (o.logins, o.sleeps, o.state.login_attempts))
        = [(1, [300], 1), (1, [300], 2), (1, [300], 3), (1, [300], 4),
           (1, [300], 5), (1, [300], 6), (1, [300], 7), (1, [300], 8),
           (1, [300], 9), (1, [300], 10), (1, [300], 11), (1, [300], 12),
           (1, [300], 13), (1, [300], 14), (1, [300], 15), (1, [300], 16),
           (1, [300], 17), (1, [300], 18), (1, [300], 19), (1, [300], 20),
           (0, [60, 300], 0), (1, [300], 1), (1, [300], 2), (1, [300], 3),
           (1, [300], 4)] := by
  refine ⟨?_, fun c mac nets s h => runSteps_login_attempts_le c mac nets s h,
    by decide⟩
  intro c mac s net hauto hprobe
  constructor
  · intro hlt
    refine ⟨?_, ?_, ?_⟩ <;> simp [runCycle, hauto, hprobe, hlt]
  · intro hnlt
    refine ⟨?_, ?_, ?_⟩ <;> simp [runCycle, hauto, hprobe, hnlt]

/-- Witness for `backoff_policy`: the first disconnected cycle logs in once
and advances the counter to 1; at counter 20 the cycle backs off 60 seconds
and resets; one step from the initial state stays within the bound. -/
theorem backoff_policy_witness :
    ((runCycle cfg20 "000000000000" initState downNet).logins = 1
      ∧ (runCycle cfg20 "000000000000" initState downNet).state.login_attempts
          = 1
      ∧ (runCycle cfg20 "000000000000" initState downNet).sleeps = [300])
    ∧ ((runCycle cfg20 "000000000000" ⟨20, false⟩ downNet).logins = 0
      ∧ (runCycle cfg20 "000000000000" ⟨20, false⟩ downNet).state.login_attempts
          = 0
      ∧ (runCycle cfg20 "000000000000" ⟨20, false⟩ downNet).sleeps = [60, 300])
    ∧ (runSteps cfg20 "000000000000" initState [downNet]).login_attempts
        ≤ cfg20.max_attempt :=
  ⟨(backoff_policy.1 cfg20 "000000000000" initState downNet rfl (by decide)).1
      (by decide),
   (backoff_policy.1 cfg20 "000000000000" ⟨20, false⟩ downNet rfl (by decide)).2
      (by decide),
   backoff_policy.2.1 cfg20 "000000000000" [downNet] initState (by decide)⟩

/-- Claim C4: whenever the resolved username or the resolved password is
empty, `login` fails with the "Missing credentials" authentication error and
sends no network request at all. -/
theorem login_missing_credentials :
    ∀ c kr mac net, (c.username.isEmpty || (c.get_password kr).isEmpty) = true →
      login c kr mac net = (.error (.authFailed "Missing credentials"), []) := by
  intro c kr mac net h
  simp [login, h]

/-- Witness for `login_missing_credentials`: a configuration with a username
but no resolvable password fails without touching the (available) network. -/
theorem login_missing_credentials_witness :
    login
      { username := "user", password := none, ip_address := none,
        interval := 300, max_attempt := 20, auto_login := true }
      .noEntry "000000000000" (.ok ⟨200, .ok ""⟩)
      = (.error (.authFailed "Missing credentials"), []) :=
  login_missing_credentials _ _ _ _ (by decide)

/-- Claim C5, counterexample: with an empty username, an absent plaintext
password and a secure-store value stored under the empty username, the code
returns `""` while the claimed "first non-empty of plaintext, store value,
empty" would return the store value — the keyring is only consulted when the
username is non-empty. -/
theorem get_password_empty_username_counterexample :
    Config.get_password
        { username := "", password := none, ip_address := none,
          interval := 300, max_attempt := 20, auto_login := true }
        (.found "secret") = ""
    ∧ resolvePasswordSpec "" (keyringValue (.found "secret")) = "secret"
    ∧ ("" : String) ≠ "secret" := by
  decide

/-- Helper: a string's `isEmpty` is `false` iff the string is not `""`. -/
theorem isEmpty_false_iff (s : String) : (s.isEmpty = false) ↔ s ≠ "" := by
  rw [Bool.eq_false_iff]
  exact not_congr (String.isEmpty_iff s)

/-- Claim C5, amended: when the username is non-empty, `Config.get_password`
returns exactly the spec's "first non-empty wins" resolution over the
plaintext password and the secure-store value (so a non-empty plaintext beats
an unreachable store, and a stored value beats an empty plaintext); when the
username is empty the store is never consulted and only the plaintext can be
returned. -/
theorem get_password_precedence :
    ∀ (c : Config) (kr : KeyringResult),
      (c.username.isEmpty = false →
        c.get_password kr
          = resolvePasswordSpec (c.password.getD "") (keyringValue kr))
      ∧ (c.username.isEmpty = true →
        c.get_password kr = resolvePasswordSpec (c.password.getD "") "") := by
  intro c kr
  constructor <;> intro h <;>
    rcases hp : c.password with _ | pwd <;>
      rcases kr with pwd2 | _ | _ <;>
        simp [Config.get_password, resolvePasswordSpec, keyringValue,
          CredentialManager.get_password, hp, h]
  all_goals
    first
    | (by_cases h2 : pwd2 = "" <;> by_cases h3 : pwd = "" <;>
        simp_all [isEmpty_false_iff, String.isEmpty_iff,
          show ("".isEmpty) = true from rfl])
    | (by_cases h2 : pwd2 = "" <;>
        simp_all [isEmpty_false_iff, String.isEmpty_iff,
          show ("".isEmpty) = true from rfl])

/-- Witness for `get_password_precedence`: the two scenarios the claim names —
non-empty plaintext with an unreachable store, and empty plaintext with a
stored value. -/
theorem get_password_precedence_witness :
    Config.get_password
        { username := "u", password := some "p", ip_address := none,
          interval := 300, max_attempt := 20, auto_login := true } .err
      = resolvePasswordSpec "p" (keyringValue .err)
    ∧ Config.get_password
        { username := "u", password := none, ip_address := none,
          interval := 300, max_attempt := 20, auto_login := true }
        (.found "stored")
      = resolvePasswordSpec "" (keyringValue (.found "stored")) :=
  ⟨(get_password_precedence
      { username := "u", password := some "p", ip_address := none,
        interval := 300, max_attempt := 20, auto_login := true } .err).1 rfl,
   (get_password_precedence
      { username := "u", password := none, ip_address := none,
        interval := 300, max_attempt := 20, auto_login := true }
      (.found "stored")).1 rfl⟩

/-- Claim C6: the "connection restored" notification fires on a cycle exactly
when the loop is not paused, the probe succeeds and the previously observed
state was disconnected; together with the second equation (the observed state
after a non-paused cycle is the probe result) this gives exactly one event per
Disconnected-to-Connected transition and none in steady-state Connected. -/
theorem restored_event_characterization :
    ∀ c mac s net,
      (runCycle c mac s net).restored
        = (c.auto_login && check_internet net.probe && !s.was_connected)
      ∧ (runCycle c mac s net).state.was_connected
        = (if c.auto_login then check_internet net.probe else s.was_connected) := by
  intro c mac s net
  rcases hauto : c.auto_login with _ | _
  · constructor <;> simp [runCycle, hauto]
  · rcases hprobe : check_internet net.probe with _ | _
    · constructor <;> simp only [runCycle, hauto, hprobe] <;>
        simp <;> split <;> rfl
    · rcases h : heartbeat net.hb with e | b
      · constructor <;> simp [runCycle, hauto, hprobe, h]
      · cases b <;> constructor <;> simp [runCycle, hauto, hprobe, h]

/-- Claim C7: on a cycle whose probe succeeds while the heartbeat does not
return `Ok(true)`, exactly one login is attempted (its outcome only logged),
the failure counter is 0 (never incremented), the observed state ends
Connected, and no "connection lost" event fires. -/
theorem heartbeat_failure_frame :
    ∀ c mac s net, c.auto_login = true → check_internet net.probe = true →
      heartbeat net.hb ≠ .ok true →
      (runCycle c mac s net).logins = 1
      ∧ (runCycle c mac s net).loginResult
          = some (login c net.kr mac net.loginNet).1
      ∧ (runCycle c mac s net).state.login_attempts = 0
      ∧ (runCycle c mac s net).state.was_connected = true
      ∧ (runCycle c mac s net).lost = false := by
  intro c mac s net hauto hprobe hhb
  rcases h : heartbeat net.hb with e | b
  · simp [runCycle, hauto, hprobe, h]
  · cases b
    · simp [runCycle, hauto, hprobe, h]
    · exact absurd h hhb

/-- Witness for `heartbeat_failure_frame`: probe 200/"success", heartbeat
rejected with 500, login succeeding — one login call, state Connected, no
lost event. -/
theorem heartbeat_failure_frame_witness :
    (runCycle cfg20 "000000000000" initState hbFailNet).logins = 1
    ∧ (runCycle cfg20 "000000000000" initState hbFailNet).loginResult
        = some (login cfg20 hbFailNet.kr "000000000000" hbFailNet.loginNet).1
    ∧ (runCycle cfg20 "000000000000" initState hbFailNet).state.login_attempts
        = 0
    ∧ (runCycle cfg20 "000000000000" initState hbFailNet).state.was_connected
        = true
    ∧ (runCycle cfg20 "000000000000" initState hbFailNet).lost = false :=
  heartbeat_failure_frame cfg20 "000000000000" initState hbFailNet rfl
    (by decide) (by decide)

/-- Claim C8, counterexample: the loop's initial connectivity flag is
`was_connected = true`, i.e. the observed state is Connected — not the spec's
Unknown (the boolean state cannot represent Unknown at all). -/
theorem initial_state_not_unknown :
    observedState initState.was_connected = ConnState.Connected
    ∧ observedState initState.was_connected ≠ ConnState.Unknown := by
  decide

/-- Claim C8, amended: at loop start the session state is
`login_attempts = 0` and `was_connected = true` (initially Connected, no
Unknown value); there is no stored `paused` field — a cycle is paused exactly
when the configuration's auto-login flag is false, in which case it sleeps 5
seconds and performs no network call, emits no event and leaves the state
unchanged. -/
theorem paused_and_initial_state :
    initState = { login_attempts := 0, was_connected := true }
    ∧ (∀ c mac s net, c.auto_login = false →
        runCycle c mac s net
          = { state := s, logins := 0, loginResult := none, restored := false,
              lost := false, sleeps := [5] }) :=
  ⟨rfl, by intro c mac s net h; simp [runCycle, h]⟩

/-- Witness for `paused_and_initial_state`: with auto-login off, a cycle in a
fully failing environment is a no-op that sleeps 5 seconds. -/
theorem paused_and_initial_state_witness :
    runCycle cfgPaused "000000000000" initState downNet
      = { state := initState, logins := 0, loginResult := none,
          restored := false, lost := false, sleeps := [5] } :=
  paused_and_initial_state.2 cfgPaused "000000000000" initState downNet
    (by decide)

/-- Claim C9: `load`'s keyring migration never fails the load and keeps the
plaintext in the config; `save`'s overall result never depends on the keyring
outcome; and with a non-empty plaintext password and username both operations
attempt the store write, the persisted document omits the plaintext exactly
when the write succeeded and keeps it as fallback when it failed. -/
theorem config_migration_policy :
    (∀ (c : Config) (w : StoreWrite), (c.loadMigrate w).1 = .ok c)
    ∧ (∀ (c : Config) (w : StoreWrite) (fs : Except Unit Unit),
        (c.save w fs).2.2 = (c.save .ok fs).2.2)
    ∧ (∀ (c : Config) (fs : Except Unit Unit) (pwd : String),
        c.password = some pwd → pwd.isEmpty = false → c.username.isEmpty = false →
        (∀ w, (c.loadMigrate w).2 = true)
        ∧ (∀ w, (c.save w fs).2.1 = true)
        ∧ (c.save .ok fs).1.password = none
        ∧ (c.save .err fs).1.password = some pwd) := by
  refine ⟨?_, ?_, ?_⟩
  · intro c w
    rcases hp : c.password with _ | pwd
    · simp [Config.loadMigrate, hp]
    · rcases w with _ | _ <;>
        simp [Config.loadMigrate, hp, CredentialManager.set_password] <;>
        split <;> rfl
  · intro c w fs
    rcases fs with _ | _ <;> rfl
  · intro c fs pwd hp hpwd huser
    refine ⟨?_, ?_, ?_, ?_⟩
    · intro w
      rcases w with _ | _ <;>
        simp [Config.loadMigrate, hp, hpwd, huser,
          CredentialManager.set_password]
    · intro w
      rcases w with _ | _ <;> rcases fs with _ | _ <;>
        simp [Config.save, hp, hpwd, huser, CredentialManager.set_password]
    · rcases fs with _ | _ <;>
        simp [Config.save, hp, hpwd, huser, CredentialManager.set_password]
    · rcases fs with _ | _ <;>
        simp [Config.save, hp, hpwd, huser, CredentialManager.set_password]

/-- Witness for `config_migration_policy` on `cfg20` (username "u", plaintext
"p"): load survives a failing store, save's result ignores the store outcome,
both attempt the write, success drops the plaintext from the document and
failure keeps it. -/
theorem config_migration_policy_witness :
    (cfg20.loadMigrate .err).1 = .ok cfg20
    ∧ (cfg20.save .err (.ok ())).2.2 = (cfg20.save .ok (.ok ())).2.2
    ∧ (cfg20.loadMigrate .err).2 = true
    ∧ (cfg20.save .err (.ok ())).2.1 = true
    ∧ (cfg20.save .ok (.ok ())).1.password = none
    ∧ (cfg20.save .err (.ok ())).1.password = some "p" :=
  ⟨config_migration_policy.1 cfg20 .err,
   config_migration_policy.2.1 cfg20 .err (.ok ()),
   (config_migration_policy.2.2 cfg20 (.ok ()) "p" rfl (by decide)
      (by decide)).1 .err,
   (config_migration_policy.2.2 cfg20 (.ok ()) "p" rfl (by decide)
      (by decide)).2.1 .err,
   (config_migration_policy.2.2 cfg20 (.ok ()) "p" rfl (by decide)
      (by decide)).2.2.1,
   (config_migration_policy.2.2 cfg20 (.ok ()) "p" rfl (by decide)
      (by decide)).2.2.2⟩

set_option maxRecDepth 4000 in
/-- Claim C10: constructing the client never fails because of MAC detection
(with a working HTTP builder, `new` succeeds for every MAC lookup outcome);
a reported address is stored as its lowercase hex string with colons removed;
a failed or empty lookup stores the fixed `"000000000000"`; and every network
request `login` sends carries the stored value as its `umac` field. -/
theorem mac_address_policy :
    (∀ (c : Config) (r : MacResult),
      AuthClient.new c (.ok ()) r
        = .ok { config := c, mac_address := computeMac r })
    ∧ (∀ m : MacAddr, computeMac (.ok (some m)) = macHexLowerSpec m)
    ∧ computeMac (.ok none) = "000000000000"
    ∧ computeMac (.error ()) = "000000000000"
    ∧ (∀ u p ip mac : String, (loginParams u p ip mac).lookup "umac" = some mac)
    ∧ (∀ (c : Config) (kr : KeyringResult) (mac : String) (net : NetResult),
        (login c kr mac net).2 = []
        ∨ (login c kr mac net).2
            = [loginParams c.username (c.get_password kr)
                (c.ip_address.getD "") mac]) := by
  refine ⟨fun c r => rfl, ?_, rfl, rfl, fun u p ip mac => rfl, ?_⟩
  · have hfilter : ∀ b : Fin 256,
        (hexPairUpper b).filter (fun ch => ch != ':') = hexPairUpper b := by
      decide
    have hlower : ∀ b : Fin 256,
        (hexPairUpper b).map rustToLower = hexPairLowerSpec b := by
      decide
    have hcolon : ((':' : Char) != ':') = false := rfl
    intro m
    apply String.ext
    show ((hexPairUpper m.b0 ++ ':' :: hexPairUpper m.b1
        ++ ':' :: hexPairUpper m.b2 ++ ':' :: hexPairUpper m.b3
        ++ ':' :: hexPairUpper m.b4 ++ ':' :: hexPairUpper m.b5).filter
          (fun ch => ch != ':')).map rustToLower
      = hexPairLowerSpec m.b0 ++ hexPairLowerSpec m.b1 ++ hexPairLowerSpec m.b2
        ++ hexPairLowerSpec m.b3 ++ hexPairLowerSpec m.b4
        ++ hexPairLowerSpec m.b5
    simp [List.filter_append, List.map_append, List.filter_cons, hcolon,
      hfilter, hlower]
  · intro c kr mac net
    by_cases h : (c.username.isEmpty || (c.get_password kr).isEmpty) = true
    · left; simp [login, h]
    · right
      rcases net with e | resp
      · simp [login, h]
      · by_cases hs : isSuccessStatus resp.status
        · rcases hb : resp.body with e | t <;> simp [login, h, hs, hb]
        · simp [login, h, hs]

end KmitlNetAuth
